import Mathlib

/-!
Verification of the GQL integration layer of Twitch-Channel-Points-Miner-v2:
the bounded-retry engine (`AttemptStrategy.make_attempts`), the error taxonomy
(`GQLError` and friends), the request executor (`GQL.__post_gql_request` and the
single/batch drivers), the pagination driver (`channel_follows`), the chunked
batching driver (`get_drop_campaign_details`) and the template-copy discipline of
the operation wrappers.  The Python sources are shallowly embedded as executable
Lean definitions; theorems below settle the specification claims against them.
-/

namespace TCPM

/-! ## JSON values

Python dict/list JSON values, modelled as an inductive value type.  Dict fields
keep insertion order, as Python dicts do. -/

inductive Json where
  | null
  | bool (b : Bool)
  | num (n : Int)
  | str (s : String)
  | arr (elems : List Json)
  | obj (fields : List (String × Json))
  deriving Repr

/-- Assignment `d[key] = v` on an ordered association list: replaces the value
in place when the key exists, appends otherwise (Python dict semantics). -/
def setAssoc : List (String × Json) → String → Json → List (String × Json)
  | [], k, v => [(k, v)]
  | (k', v') :: rest, k, v =>
    if k' = k then (k, v) :: rest else (k', v') :: setAssoc rest k v

/-- Lookup `d[key]` on an ordered association list. -/
def getAssoc : List (String × Json) → String → Option Json
  | [], _ => none
  | (k', v') :: rest, k => if k' = k then some v' else getAssoc rest k

/-- `d[key]` for a JSON value (only objects have fields). -/
def Json.getField : Json → String → Option Json
  | .obj fields, k => getAssoc fields k
  | _, _ => none

/-- `d[key] = v` for a JSON value (a no-op on non-objects). -/
def Json.setField : Json → String → Json → Json
  | .obj fields, k, v => .obj (setAssoc fields k v)
  | j, _, _ => j

/-- Python's `type(x).__name__` for the JSON values we model. -/
def Json.typeName : Json → String
  | .null => "NoneType"
  | .bool _ => "bool"
  | .num _ => "int"
  | .str _ => "str"
  | .arr _ => "list"
  | .obj _ => "dict"

/-- Whether the value is a JSON array (`isinstance(x, list)`). -/
def Json.isArr : Json → Bool
  | .arr _ => true
  | _ => false

/-! ## Error taxonomy (`classes/gql/Errors.py`)

`GQLError` is the abstract base (its default `recoverable` returns `False`);
`GQLResponseErrors`, `InvalidJsonShapeException` and `RetryError` are its
variants.  `RetryError` carries the attempt history: a list of
`ExceptionContext` values, each an exception paired with an optional stack
trace, which makes the type mutually recursive with the exception type. -/

/-- Modelled from the spec: the per-item `Error` class (external to the sources
under verification, from `classes/gql/__init__`) exposes a boolean `recoverable`
field consulted by `GQLResponseErrors.recoverable`. -/
structure ErrorItem where
  recoverable : Bool
  deriving Repr, DecidableEq

mutual

/-- The closed set of `GQLError` variants from `Errors.py`. -/
inductive GQLError where
  | responseErrors (operationName : String) (errors : List ErrorItem)
  | invalidJsonShape (path : List (String ⊕ Int)) (message : String)
  | retryError (operationName : String) (errors : List (Exc × Option String))
  deriving Repr

/-- A Python exception as seen by the executor's classifiers: a
`requests.exceptions.RequestException`, a `GQLError`, or anything else. -/
inductive Exc where
  | requestException (info : String)
  | gql (e : GQLError)
  | otherError (info : String)
  deriving Repr

end

/-- `GQLError.recoverable` per variant: `GQLResponseErrors` overrides it with
`all(error.recoverable for error in self.errors)`; `InvalidJsonShapeException`
overrides it with `False`; `RetryError` does not override, so it inherits the
base-class default `False`. -/
def GQLError.recoverable : GQLError → Bool
  | .responseErrors _ errors => errors.all (fun e => e.recoverable)
  | .invalidJsonShape _ _ => false
  | .retryError _ _ => false

/-- `is_recoverable_error` from `Integration.py`: transport errors are always
recoverable, `GQLError`s defer to their own `recoverable()`, everything else is
not recoverable. -/
def is_recoverable_error : Exc → Bool
  | .requestException _ => true
  | .gql g => g.recoverable
  | .otherError _ => false

/-- `error_context` from `Integration.py`: a stack trace (here the ambient
trace string `tb`, standing for `traceback.format_exc()`) for any non-`GQLError`
exception, `None` for a `GQLError`. -/
def error_context (tb : String) : Exc → Option String
  | .gql _ => none
  | _ => some tb

/-- `parse_list` from `Integration.py`: maps the item parser over a JSON list,
raising `InvalidJsonShapeException([], "list expected")` on anything else. -/
def parse_list {α : Type} (parse : Json → Except Exc α) (value : Json) :
    Except Exc (List α) :=
  match value with
  | .arr items => items.mapM parse
  | _ => .error (.gql (.invalidJsonShape [] "list expected"))

/-! ## The bounded-retry engine (`utils/AttemptStrategy.py`)

`ExceptionContext(exception, stack_trace)` is modelled as a pair
`ε × Option String`.  `SuccessResult(errors, result)` and `ErrorResult(errors)`
become the two constructors of `AttemptOutcome`.  The run additionally reports
how many times the `attempt` callable was invoked and how many times
`time.sleep(attempt_interval_seconds)` ran, so that the observable effects of
the loop can be stated. -/

/-- `ExceptionContext`: the caught exception paired with the optional context
string produced by the `exception_context` callback. -/
abbrev ExcCtx (ε : Type) := ε × Option String

/-- The result of `make_attempts`: `SuccessResult(errors, result)` or
`ErrorResult(errors)`, errors ordered oldest first. -/
inductive AttemptOutcome (ε α : Type) where
  | success (errors : List (ExcCtx ε)) (result : α)
  | failure (errors : List (ExcCtx ε))
  deriving Repr

/-- One `make_attempts` run: its outcome, the number of invocations of the
`attempt` callable, and the number of `time.sleep` calls executed. -/
structure AttemptRun (ε α : Type) where
  outcome : AttemptOutcome ε α
  calls : Nat
  sleeps : Nat
  deriving Repr

/-- The body of the `try` block of `make_attempts`: `result = attempt()` then
`validate(result)`; an exception from either is caught by the same handler.
The attempt for call number `idx` (0-based) may depend on `idx`, reflecting
that the external transport can answer differently on each try.  `validate`
returning `some e` models it raising `e`. -/
def attemptStep {ε α : Type} (attempt : Nat → Except ε α)
    (validate : α → Option ε) (idx : Nat) : Except ε α :=
  match attempt idx with
  | .error e => .error e
  | .ok v =>
    match validate v with
    | some e => .error e
    | none => .ok v

/-- The `while attempts < self.attempts` loop of `make_attempts`.  `fuel` is
the number of loop iterations still allowed (`self.attempts - attempts`), `idx`
the number of attempts already made.  On an exception the loop records
`ExceptionContext(e, exception_context(e))`, breaks if `retryable(e)` is false
(no sleep), breaks if the attempt budget is spent (no sleep), and otherwise
sleeps once and retries. -/
def makeAttemptsGo {ε α : Type} (attempt : Nat → Except ε α)
    (validate : α → Option ε) (retryable : ε → Bool)
    (contextOf : ε → Option String) :
    Nat → Nat → List (ExcCtx ε) → Nat → Nat → AttemptRun ε α
  | 0, _, errors, calls, sleeps => ⟨.failure errors, calls, sleeps⟩
  | fuel + 1, idx, errors, calls, sleeps =>
    match attemptStep attempt validate idx with
    | .ok v => ⟨.success errors v, calls + 1, sleeps⟩
    | .error e =>
      let errors' := errors ++ [(e, contextOf e)]
      if retryable e = false then ⟨.failure errors', calls + 1, sleeps⟩
      else if fuel = 0 then ⟨.failure errors', calls + 1, sleeps⟩
      else
        makeAttemptsGo attempt validate retryable contextOf fuel (idx + 1)
          errors' (calls + 1) (sleeps + 1)

/-- `AttemptStrategy.make_attempts` with configuration
`attempts = maxAttempts` (a Python `int`, possibly non-positive: the loop then
never runs and `ErrorResult([])` is returned). -/
def make_attempts {ε α : Type} (maxAttempts : Int) (attempt : Nat → Except ε α)
    (validate : α → Option ε) (retryable : ε → Bool)
    (contextOf : ε → Option String) : AttemptRun ε α :=
  makeAttemptsGo attempt validate retryable contextOf maxAttempts.toNat 0 [] 0 0

/-! ## The request executor (`classes/gql/Integration.py`) -/

/-- `validate_response` from `Integration.py`: accepts every value. -/
def validate_response {α : Type} (_ : α) : Option Exc := none

/-- One attempt of `GQL.__post_gql_request`, given the transport's answer for
this attempt (`status_ok` is whether `raise_for_status()` passes — a non-2xx
status raises a `requests` `HTTPError`, a `RequestException`; `response_json`
is the decoded body).  A list-shaped request body demands a list-shaped
response, which is decoded by mapping `parse` over its elements positionally
(`list(map(parse, response_json))`, so a failing element aborts at that
element); any other response shape raises `InvalidJsonShapeException`.  A
dict-shaped request body is decoded by applying `parse` to the whole body. -/
def post_gql_request {α : Type} (request_json : Json) (status_ok : Bool)
    (response_json : Json) (parse : Json → Except Exc α) :
    Except Exc (α ⊕ List α) :=
  if status_ok = false then .error (.requestException "HTTPError")
  else
    match request_json with
    | .arr _ =>
      match response_json with
      | .arr elems => (elems.mapM parse).map Sum.inr
      | other =>
        .error (.gql (.invalidJsonShape []
          ("Expected batched response, got " ++ other.typeName)))
    | _ => (parse response_json).map Sum.inl

/-- `GQL.__handle_result`: an `ErrorResult` becomes a raised
`RetryError(operation_name, errors)`, a `SuccessResult` yields its value. -/
def handle_result {α : Type} (run : AttemptRun Exc α) (operation_name : String) :
    Except Exc α :=
  match run.outcome with
  | .failure errors => .error (.gql (.retryError operation_name errors))
  | .success _ v => .ok v

/-- `GQL.post_gql_request_single`: drives `__post_gql_request` through
`make_attempts` with `validate_response`, `is_recoverable_error` and
`error_context`, then `__handle_result`.  `transport` gives, per attempt
number, the transport outcome `(status_ok, response_json)`. -/
def post_gql_request_single {α : Type} (maxAttempts : Int) (tb : String)
    (operation_name : String) (request_json : Json)
    (transport : Nat → Bool × Json) (parse : Json → Except Exc α) :
    Except Exc (α ⊕ List α) :=
  handle_result
    (make_attempts maxAttempts
      (fun idx =>
        post_gql_request request_json (transport idx).1 (transport idx).2 parse)
      validate_response is_recoverable_error (error_context tb))
    operation_name

/-- `GQL.post_gql_request_batch`: same driver, but the element parser is
pre-composed with `parse_list` (`lambda value: parse_list(parse, value)`), so
the parser applied to each element of the batched response itself expects a
list. -/
def post_gql_request_batch {α : Type} (maxAttempts : Int) (tb : String)
    (operation_name : String) (request_json : Json)
    (transport : Nat → Bool × Json) (parse : Json → Except Exc α) :
    Except Exc (List α ⊕ List (List α)) :=
  handle_result
    (make_attempts maxAttempts
      (fun idx =>
        post_gql_request request_json (transport idx).1 (transport idx).2
          (fun value => parse_list parse value))
      validate_response is_recoverable_error (error_context tb))
    operation_name

/-! ## Mutating wrappers with an observable request trace

`make_prediction` and `contribute_to_community_goal` build their request body —
including a fresh `token_hex(16)` transaction token — once, before handing the
closure to `make_attempts`.  To make the bodies actually put on the wire
observable, `postGqlAttemptsTraced` mirrors `makeAttemptsGo` for the
`__post_gql_request` closure (with `validate_response`, which never raises,
inlined) and additionally records the request body sent on each attempt.
`token_hex(16)` is modelled by reading a stream of random hex tokens
(`token_stream`): each draw consumes the next index, and the run reports how
many draws were made. -/

/-- The attempt loop of `post_gql_request_single`, instrumented with the list
of request bodies sent (one entry per transport submission, in order). -/
def postGqlAttemptsTraced {α : Type} (tb : String) (request_json : Json)
    (transport : Nat → Bool × Json) (parse : Json → Except Exc α) :
    Nat → Nat → List (ExcCtx Exc) → Nat → Nat → List Json →
    AttemptRun Exc (α ⊕ List α) × List Json
  | 0, _, errors, calls, sleeps, sent => (⟨.failure errors, calls, sleeps⟩, sent)
  | fuel + 1, idx, errors, calls, sleeps, sent =>
    let sent' := sent ++ [request_json]
    match post_gql_request request_json (transport idx).1 (transport idx).2
        parse with
    | .ok v => (⟨.success errors v, calls + 1, sleeps⟩, sent')
    | .error e =>
      let errors' := errors ++ [(e, error_context tb e)]
      if is_recoverable_error e = false then
        (⟨.failure errors', calls + 1, sleeps⟩, sent')
      else if fuel = 0 then (⟨.failure errors', calls + 1, sleeps⟩, sent')
      else
        postGqlAttemptsTraced tb request_json transport parse fuel (idx + 1)
          errors' (calls + 1) (sleeps + 1) sent'

/-- The observable outcome of one mutating wrapper call: its returned or
raised value, the request bodies submitted (one per attempt) and the number of
`token_hex` draws made during the call. -/
structure MutationRun (α : Type) where
  result : Except Exc (α ⊕ List α)
  sent : List Json
  tokens_drawn : Nat

/-- `GQL.make_prediction`: deep-copies the `MakePrediction` template (passed in
as the opaque constant `template`), sets `variables` to the input object — with
`transactionID` drawn from `token_hex(16)` exactly once, before the retry loop —
and submits via `post_gql_request_single`. -/
def make_prediction {α : Type} (maxAttempts : Int) (tb : String)
    (template : Json) (event_id outcome_id : String) (points : Int)
    (token_stream : Nat → String) (transport : Nat → Bool × Json)
    (parse : Json → Except Exc α) : MutationRun α :=
  let transactionID := token_stream 0
  let json_data := template.setField "variables"
    (.obj [("input", .obj
      [("eventID", .str event_id), ("outcomeID", .str outcome_id),
       ("points", .num points), ("transactionID", .str transactionID)])])
  let (run, sent) := postGqlAttemptsTraced tb json_data transport parse
    maxAttempts.toNat 0 [] 0 0 []
  { result := handle_result run "MakePrediction"
    sent := sent
    tokens_drawn := 1 }

/-- `GQL.contribute_to_community_goal`: deep-copies the
`ContributeCommunityPointsCommunityGoal` template, sets `variables` to the
input object — with `transactionID` drawn from `token_hex(16)` exactly once,
before the retry loop — and submits via `post_gql_request_single`. -/
def contribute_to_community_goal {α : Type} (maxAttempts : Int) (tb : String)
    (template : Json) (channel_id goal_id : String) (amount : Int)
    (token_stream : Nat → String) (transport : Nat → Bool × Json)
    (parse : Json → Except Exc α) : MutationRun α :=
  let transactionID := token_stream 0
  let json_data := template.setField "variables"
    (.obj [("input", .obj
      [("amount", .num amount), ("channelID", .str channel_id),
       ("goalID", .str goal_id), ("transactionID", .str transactionID)])])
  let (run, sent) := postGqlAttemptsTraced tb json_data transport parse
    maxAttempts.toNat 0 [] 0 0 []
  { result := handle_result run "ContributeCommunityPointsCommunityGoal"
    sent := sent
    tokens_drawn := 1 }

/-! ## The pagination driver (`GQL.channel_follows`) -/

/-- The node of one follow edge (the parser yields `edge.node.login`). -/
structure FollowNode where
  login : String
  deriving Repr, DecidableEq

/-- One edge of the follows connection: a node and its cursor. -/
structure FollowEdge where
  node : FollowNode
  cursor : String
  deriving Repr, DecidableEq

/-- `pageInfo` of the follows connection. -/
structure FollowsPageInfo where
  has_next_page : Bool
  deriving Repr, DecidableEq

/-- The follows connection: edges plus page info. -/
structure FollowsConnection where
  edges : List FollowEdge
  page_info : FollowsPageInfo
  deriving Repr, DecidableEq

/-- The parsed `ChannelFollows` response consumed by the driver. -/
structure ChannelFollowsResponse where
  follows : FollowsConnection
  deriving Repr, DecidableEq

/-- The request body of one `ChannelFollows` page call: the deep-copied
template with `variables = {limit, order}` and then `variables["cursor"]`
assigned to the current last cursor. -/
def channelFollowsBody (template : Json) (limit : Int) (order : String)
    (cursor : String) : Json :=
  let json_data := template.setField "variables"
    (.obj [("limit", .num limit), ("order", .str order)])
  json_data.setField "variables"
    (((json_data.getField "variables").getD (.obj [])).setField "cursor"
      (.str cursor))

/-- How one `channel_follows` call ends: the `RetryError` (or other exception)
propagating out of `post_gql_request_single`, a returned list of logins, or
loop fuel running out (the Python `while` has no bound of its own). -/
inductive ChannelFollowsOutcome where
  | raised (e : Exc)
  | returned (follows : List String)
  | fuelOut
  deriving Repr

/-- The `while has_next` loop of `channel_follows`: issues one page call with
the current cursor, appends `edge.node.login` for each edge and advances
`last_cursor` to the last edge's cursor, continues while
`page_info.has_next_page`; a parsed response of `None` logs a warning and
returns `[]`; an exception from the page call propagates.  `transport` gives
the transport outcome per (page-call number, attempt number). -/
def channelFollowsGo (maxAttempts : Int) (tb : String) (template : Json)
    (limit : Int) (order : String) (transport : Nat → Nat → Bool × Json)
    (parse : Json → Except Exc (Option ChannelFollowsResponse)) :
    Nat → Nat → String → List String → ChannelFollowsOutcome
  | 0, _, _, _ => .fuelOut
  | fuel + 1, callIdx, last_cursor, follows =>
    let json_data := channelFollowsBody template limit order last_cursor
    match post_gql_request_single maxAttempts tb "ChannelFollows" json_data
        (transport callIdx) parse with
    | .error e => .raised e
    | .ok (.inr _) =>
      -- unreachable: a dict-shaped request never yields a batched result
      .raised (.otherError "unreachable")
    | .ok (.inl parsed) =>
      match parsed with
      | none => .returned []
      | some resp =>
        let follows' := follows ++ resp.follows.edges.map (fun e => e.node.login)
        let last_cursor' :=
          ((resp.follows.edges.getLast?).map (fun e => e.cursor)).getD last_cursor
        if resp.follows.page_info.has_next_page then
          channelFollowsGo maxAttempts tb template limit order transport parse
            fuel (callIdx + 1) last_cursor' follows'
        else .returned follows'

/-- `GQL.channel_follows`, starting from the empty-string cursor and an empty
accumulator, allowed up to `fuel` page calls. -/
def channel_follows (fuel : Nat) (maxAttempts : Int) (tb : String)
    (template : Json) (limit : Int) (order : String)
    (transport : Nat → Nat → Bool × Json)
    (parse : Json → Except Exc (Option ChannelFollowsResponse)) :
    ChannelFollowsOutcome :=
  channelFollowsGo maxAttempts tb template limit order transport parse fuel 0 "" []

/-! ## The chunked batching driver (`GQL.get_drop_campaign_details`) -/

/-- Modelled from the spec: `create_chunks` (from `TwitchChannelPointsMiner.utils`,
external to the sources under verification) partitions a list into
order-preserving contiguous chunks of the given size. -/
def createChunksGo {α : Type} (n : Nat) : Nat → List α → List (List α)
  | 0, _ => []
  | _, [] => []
  | fuel + 1, x :: xs => ((x :: xs).take n) :: createChunksGo n fuel ((x :: xs).drop n)

/-- Modelled from the spec: `create_chunks xs n` splits `xs` into contiguous
chunks of size `n` (the last possibly shorter), preserving order. -/
def create_chunks {α : Type} (xs : List α) (n : Nat) : List (List α) :=
  createChunksGo n xs.length xs

/-- The batched request body for one chunk: one deep copy of the
`DropCampaignDetails` template per campaign id, each with
`variables = {dropID, channelLogin}`. -/
def dropCampaignChunkBody (template : Json) (userId : String)
    (chunk : List String) : Json :=
  .arr (chunk.map (fun campaign =>
    template.setField "variables"
      (.obj [("dropID", .str campaign), ("channelLogin", .str userId)])))

/-- The `for chunk in chunks` loop of `get_drop_campaign_details`.  Each chunk
is submitted via `post_gql_request_batch`; an exception from it (such as the
`RetryError` raised after a non-recoverable shape error) propagates out of the
whole driver.  A successful batch value is always a list (`Sum.inr`), so the
`isinstance(response, list)` guard's skip-and-continue branch (`Sum.inl`) is
unreachable; its items — themselves lists produced by the `parse_list`-wrapped
element parser, hence never `None` — all pass the `item is not None` filter and
are appended. -/
def getDropCampaignDetailsGo (maxAttempts : Int) (tb : String) (template : Json)
    (userId : String) (transport : Nat → Nat → Bool × Json)
    (parse : Json → Except Exc Json) :
    List (List String) → Nat → List (List Json) → Except Exc (List (List Json))
  | [], _, result => .ok result
  | chunk :: rest, chunkIdx, result =>
    let json_data := dropCampaignChunkBody template userId chunk
    match post_gql_request_batch maxAttempts tb "DropCampaignDetails" json_data
        (transport chunkIdx) parse with
    | .error e => .error e
    | .ok (.inl _) =>
      -- "Unexpected campaigns response format, skipping chunk"
      getDropCampaignDetailsGo maxAttempts tb template userId transport parse
        rest (chunkIdx + 1) result
    | .ok (.inr items) =>
      getDropCampaignDetailsGo maxAttempts tb template userId transport parse
        rest (chunkIdx + 1) (result ++ items)

/-- `GQL.get_drop_campaign_details`: chunks the campaign ids 20 at a time and
drives each chunk through the batched executor, accumulating results. -/
def get_drop_campaign_details (maxAttempts : Int) (tb : String) (template : Json)
    (userId : String) (campaign_ids : List String)
    (transport : Nat → Nat → Bool × Json) (parse : Json → Except Exc Json) :
    Except Exc (List (List Json)) :=
  getDropCampaignDetailsGo maxAttempts tb template userId transport parse
    (create_chunks campaign_ids 20) 0 []

/-! ## Template aliasing and mutation (operation wrappers)

To reason about `copy.deepcopy` versus in-place mutation of the process-wide
template constants, the request-building step of the wrappers is embedded over
an explicit heap of JSON objects addressed by index.  `copy.deepcopy` allocates
a fresh address holding the same value (our `Json` values are trees, so a value
copy is a deep copy); `d[key] = v` mutates the object at an address.  Each
build function returns the updated heap together with the address of the object
it passes to the executor as the request body. -/

/-- A heap of JSON objects; an address is an index into the list. -/
structure Heap where
  objs : List Json
  deriving Repr

/-- Dereference an address. -/
def Heap.get (h : Heap) (a : Nat) : Json := h.objs.getD a .null

/-- Allocate a fresh object holding `j`; returns the new heap and the fresh
address. -/
def Heap.alloc (h : Heap) (j : Json) : Heap × Nat :=
  (⟨h.objs ++ [j]⟩, h.objs.length)

/-- `heap[a][key] = v`: mutate the object at address `a` in place. -/
def Heap.setField (h : Heap) (a : Nat) (key : String) (v : Json) : Heap :=
  ⟨h.objs.set a ((h.get a).setField key v)⟩

/-- Request build step of `GQL.video_player_stream_info_overlay_channel`:
`json_data = copy.deepcopy(template)`, then
`json_data["variables"] = {"channel": streamer_username}`; the copy's address
is what is submitted. -/
def video_player_stream_info_overlay_channel_build (h : Heap) (tmpl : Nat)
    (streamer_username : String) : Heap × Nat :=
  let (h1, a) := h.alloc (h.get tmpl)
  let h2 := h1.setField a "variables" (.obj [("channel", .str streamer_username)])
  (h2, a)

/-- Request build step of `GQL.make_prediction`: a deep copy of the template
with `variables` set to the prediction input (transaction token included). -/
def make_prediction_build (h : Heap) (tmpl : Nat)
    (event_id outcome_id : String) (points : Int) (token : String) :
    Heap × Nat :=
  let (h1, a) := h.alloc (h.get tmpl)
  let h2 := h1.setField a "variables"
    (.obj [("input", .obj
      [("eventID", .str event_id), ("outcomeID", .str outcome_id),
       ("points", .num points), ("transactionID", .str token)])])
  (h2, a)

/-- Request build step of `GQL.get_inventory`: no copy and no write — the
shared `GQLOperations.Inventory` template itself is passed as the request
body. -/
def get_inventory_build (h : Heap) (tmpl : Nat) : Heap × Nat := (h, tmpl)

/-- Request build step of `GQL.get_viewer_drops_dashboard`: no copy and no
write — the shared `GQLOperations.ViewerDropsDashboard` template itself is
passed as the request body. -/
def get_viewer_drops_dashboard_build (h : Heap) (tmpl : Nat) : Heap × Nat :=
  (h, tmpl)

/-! ## Engine lemmas -/

/-- If the first `m` attempts (from call number `idx`) fail with retryable
errors and attempt `idx + m` succeeds, the loop returns a success carrying the
`m` recorded errors oldest-first, after `m + 1` calls and `m` sleeps. -/
theorem makeAttemptsGo_success_after {ε α : Type} (attempt : Nat → Except ε α)
    (validate : α → Option ε) (retryable : ε → Bool)
    (contextOf : ε → Option String) (e : Nat → ε) (v : α) :
    ∀ (m fuel idx : Nat) (errors : List (ExcCtx ε)) (calls sleeps : Nat),
      (∀ k < m, attemptStep attempt validate (idx + k) = .error (e (idx + k)) ∧
        retryable (e (idx + k)) = true) →
      attemptStep attempt validate (idx + m) = .ok v →
      m + 1 ≤ fuel →
      makeAttemptsGo attempt validate retryable contextOf fuel idx errors calls
          sleeps =
        ⟨.success (errors ++ (List.range m).map
            (fun k => (e (idx + k), contextOf (e (idx + k))))) v,
          calls + m + 1, sleeps + m⟩ := by
  intro m
  induction m with
  | zero =>
    intro fuel idx errors calls sleeps _ hok hfuel
    match fuel, hfuel with
    | f + 1, _ =>
      rw [Nat.add_zero] at hok
      simp [makeAttemptsGo, hok]
  | succ m ih =>
    intro fuel idx errors calls sleeps hfail hok hfuel
    match fuel, hfuel with
    | f + 1, hfuel =>
      have h0 := hfail 0 (Nat.succ_pos m)
      rw [Nat.add_zero] at h0
      have hf : 1 ≤ f := by omega
      simp only [makeAttemptsGo, h0.1, h0.2]
      rw [if_neg (by simp [h0.2]), if_neg (by omega)]
      rw [ih f (idx + 1) (errors ++ [(e idx, contextOf (e idx))]) (calls + 1)
        (sleeps + 1)
        (fun k hk => by
          have := hfail (k + 1) (by omega)
          rw [show idx + (k + 1) = idx + 1 + k by omega] at this
          exact this)
        (by rw [show idx + 1 + m = idx + (m + 1) by omega]; exact hok)
        (by omega)]
      simp only [AttemptRun.mk.injEq, AttemptOutcome.success.injEq]
      refine ⟨⟨?_, trivial⟩, by omega, by omega⟩
      rw [List.range_succ_eq_map, List.map_cons, List.map_map,
        List.append_assoc]
      simp only [Nat.add_zero, List.singleton_append]
      congr 1
      congr 1
      apply List.map_congr_left
      intro k _
      simp only [Function.comp_apply]
      rw [show idx + (k + 1) = idx + 1 + k by omega]

/-- If the first `m` attempts (from call number `idx`) fail with retryable
errors and attempt `idx + m` fails with a non-retryable error, the loop stops
at once: a failure carrying the `m + 1` recorded errors oldest-first, after
`m + 1` calls, with no sleep after the non-retryable error (`m` sleeps in
total). -/
theorem makeAttemptsGo_nonretryable_stop {ε α : Type} (attempt : Nat → Except ε α)
    (validate : α → Option ε) (retryable : ε → Bool)
    (contextOf : ε → Option String) (e : Nat → ε) (efinal : ε) :
    ∀ (m fuel idx : Nat) (errors : List (ExcCtx ε)) (calls sleeps : Nat),
      (∀ k < m, attemptStep attempt validate (idx + k) = .error (e (idx + k)) ∧
        retryable (e (idx + k)) = true) →
      attemptStep attempt validate (idx + m) = .error efinal →
      retryable efinal = false →
      m + 1 ≤ fuel →
      makeAttemptsGo attempt validate retryable contextOf fuel idx errors calls
          sleeps =
        ⟨.failure ((errors ++ (List.range m).map
            (fun k => (e (idx + k), contextOf (e (idx + k))))) ++
            [(efinal, contextOf efinal)]),
          calls + m + 1, sleeps + m⟩ := by
  intro m
  induction m with
  | zero =>
    intro fuel idx errors calls sleeps _ herr hnr hfuel
    match fuel, hfuel with
    | f + 1, _ =>
      rw [Nat.add_zero] at herr
      simp [makeAttemptsGo, herr, hnr]
  | succ m ih =>
    intro fuel idx errors calls sleeps hfail herr hnr hfuel
    match fuel, hfuel with
    | f + 1, hfuel =>
      have h0 := hfail 0 (Nat.succ_pos m)
      rw [Nat.add_zero] at h0
      simp only [makeAttemptsGo, h0.1]
      rw [if_neg (by simp [h0.2]), if_neg (by omega)]
      rw [ih f (idx + 1) (errors ++ [(e idx, contextOf (e idx))]) (calls + 1)
        (sleeps + 1)
        (fun k hk => by
          have := hfail (k + 1) (by omega)
          rw [show idx + (k + 1) = idx + 1 + k by omega] at this
          exact this)
        (by rw [show idx + 1 + m = idx + (m + 1) by omega]; exact herr)
        hnr (by omega)]
      simp only [AttemptRun.mk.injEq, AttemptOutcome.failure.injEq]
      refine ⟨?_, by omega, by omega⟩
      congr 1
      rw [List.range_succ_eq_map, List.map_cons, List.map_map,
        List.append_assoc]
      simp only [Nat.add_zero, List.singleton_append]
      congr 1
      congr 1
      apply List.map_congr_left
      intro k _
      simp only [Function.comp_apply]
      rw [show idx + (k + 1) = idx + 1 + k by omega]

/-- Any failure outcome of the loop extends the already-recorded errors, and
strictly extends them when at least one loop iteration was allowed. -/
theorem makeAttemptsGo_failure_extends {ε α : Type} (attempt : Nat → Except ε α)
    (validate : α → Option ε) (retryable : ε → Bool)
    (contextOf : ε → Option String) :
    ∀ (fuel idx : Nat) (errors : List (ExcCtx ε)) (calls sleeps : Nat)
      (es : List (ExcCtx ε)),
      (makeAttemptsGo attempt validate retryable contextOf fuel idx errors calls
        sleeps).outcome = .failure es →
      ∃ t, es = errors ++ t ∧ (1 ≤ fuel → t ≠ []) := by
  intro fuel
  induction fuel with
  | zero =>
    intro idx errors calls sleeps es h
    simp only [makeAttemptsGo] at h
    cases h
    exact ⟨[], by simp, by omega⟩
  | succ f ih =>
    intro idx errors calls sleeps es h
    simp only [makeAttemptsGo] at h
    cases hstep : attemptStep attempt validate idx with
    | ok v => rw [hstep] at h; simp at h
    | error e =>
      rw [hstep] at h
      simp only at h
      by_cases hr : retryable e = false
      · rw [if_pos hr] at h
        cases h
        exact ⟨[(e, contextOf e)], rfl, fun _ => by simp⟩
      · rw [if_neg hr] at h
        by_cases hf : f = 0
        · rw [if_pos hf] at h
          cases h
          exact ⟨[(e, contextOf e)], rfl, fun _ => by simp⟩
        · rw [if_neg hf] at h
          obtain ⟨t, ht, _⟩ := ih (idx + 1) (errors ++ [(e, contextOf e)])
            (calls + 1) (sleeps + 1) es h
          exact ⟨[(e, contextOf e)] ++ t, by simp [ht], fun _ => by simp⟩

/-! ## Claim theorems: the retry engine -/

/-- C4: for `attempts = N ≥ 1`, if the first `N - 1` invocations of
`attempt`/`validate` fail with retryable errors and the `N`-th succeeds,
`make_attempts` returns a `SuccessResult` with exactly the `N - 1` recorded
errors in oldest-first order together with the successful value, after `N`
calls and exactly `N - 1` sleeps; and if the first invocation succeeds it
returns a `SuccessResult` with zero errors, one call and zero sleeps. -/
theorem make_attempts_success_profile {ε α : Type} (N : Nat) (hN : 1 ≤ N)
    (attempt : Nat → Except ε α) (validate : α → Option ε)
    (retryable : ε → Bool) (contextOf : ε → Option String) (e : Nat → ε)
    (v : α) :
    ((∀ k < N - 1, attemptStep attempt validate k = .error (e k) ∧
        retryable (e k) = true) →
      attemptStep attempt validate (N - 1) = .ok v →
      make_attempts (N : Int) attempt validate retryable contextOf =
        ⟨.success ((List.range (N - 1)).map
            (fun k => (e k, contextOf (e k)))) v, N, N - 1⟩) ∧
    (attemptStep attempt validate 0 = .ok v →
      make_attempts (N : Int) attempt validate retryable contextOf =
        ⟨.success [] v, 1, 0⟩) := by
  have htn : (N : Int).toNat = N := Int.toNat_natCast N
  constructor
  · intro hfail hok
    unfold make_attempts
    rw [htn]
    rw [makeAttemptsGo_success_after attempt validate retryable contextOf e v
      (N - 1) N 0 [] 0 0
      (fun k hk => by simpa using hfail k hk)
      (by simpa using hok) (by omega)]
    simp only [List.nil_append, Nat.zero_add]
    congr 1
    omega
  · intro hok
    unfold make_attempts
    rw [htn]
    rw [makeAttemptsGo_success_after attempt validate retryable contextOf e v
      0 N 0 [] 0 0 (by omega) (by simpa using hok) (by omega)]
    simp

/-- C4 witness: three attempts, the first two failing retryably, the third
succeeding with value 7: success with the two errors oldest-first, three
calls, two sleeps. -/
theorem make_attempts_success_profile_witness :
    make_attempts ((3 : Nat) : Int)
      (fun k => if k < 2 then Except.error (toString k) else Except.ok 7)
      (fun (_ : Nat) => (none : Option String)) (fun _ => true)
      (fun s => some s) =
      ⟨.success [("0", some "0"), ("1", some "1")] 7, 3, 2⟩ := by
  rw [(make_attempts_success_profile 3 (by omega)
    (fun k => if k < 2 then Except.error (toString k) else Except.ok 7)
    (fun (_ : Nat) => (none : Option String)) (fun _ => true) (fun s => some s)
    (fun k => toString k) 7).1
    (by
      intro k hk
      interval_cases k <;> exact ⟨rfl, rfl⟩)
    rfl]
  rfl

/-- C5: for `attempts = N ≥ 1`, if the first `k - 1` invocations (`k ≤ N`)
fail with retryable errors and the `k`-th raises a non-retryable error,
`make_attempts` stops immediately with an `ErrorResult` carrying exactly the
`k` errors, after exactly `k` calls and `k - 1` sleeps (no sleep after the
non-retryable error). -/
theorem make_attempts_nonretryable_profile {ε α : Type} (N k : Nat)
    (hk1 : 1 ≤ k) (hkN : k ≤ N) (attempt : Nat → Except ε α)
    (validate : α → Option ε) (retryable : ε → Bool)
    (contextOf : ε → Option String) (e : Nat → ε) (efinal : ε)
    (hfail : ∀ j < k - 1, attemptStep attempt validate j = .error (e j) ∧
      retryable (e j) = true)
    (herr : attemptStep attempt validate (k - 1) = .error efinal)
    (hnr : retryable efinal = false) :
    make_attempts (N : Int) attempt validate retryable contextOf =
      ⟨.failure ((List.range (k - 1)).map (fun j => (e j, contextOf (e j))) ++
          [(efinal, contextOf efinal)]), k, k - 1⟩ := by
  unfold make_attempts
  rw [Int.toNat_natCast]
  rw [makeAttemptsGo_nonretryable_stop attempt validate retryable contextOf e
    efinal (k - 1) N 0 [] 0 0
    (fun j hj => by simpa using hfail j hj)
    (by simpa using herr) hnr (by omega)]
  simp only [List.nil_append, Nat.zero_add]
  congr 1
  omega

/-- C5 witness: three allowed attempts, the first failing retryably, the
second raising a non-retryable error: failure with those two errors, two
calls, one sleep. -/
theorem make_attempts_nonretryable_profile_witness :
    make_attempts ((3 : Nat) : Int)
      (fun k => (Except.error (toString k) : Except String Nat))
      (fun (_ : Nat) => (none : Option String)) (fun s => s = "0")
      (fun s => some s) =
      ⟨.failure [("0", some "0"), ("1", some "1")], 2, 1⟩ := by
  rw [make_attempts_nonretryable_profile 3 2 (by omega) (by omega)
    (fun k => (Except.error (toString k) : Except String Nat))
    (fun (_ : Nat) => (none : Option String)) (fun s => s = "0")
    (fun s => some s) (fun j => toString j) "1"
    (by intro j hj; interval_cases j; exact ⟨rfl, by decide⟩)
    rfl (by decide)]
  rfl

/-- C10: for `attempts ≥ 1`, any `ErrorResult` from `make_attempts` has a
non-empty error list (so the run is a `SuccessResult` or a non-trivial
`ErrorResult`); for `attempts ≤ 0`, `make_attempts` returns
`ErrorResult([])` — zero recorded errors — without ever invoking the attempt
callback (zero calls, zero sleeps). -/
theorem make_attempts_outcome_shape {ε α : Type} (maxAttempts : Int)
    (attempt : Nat → Except ε α) (validate : α → Option ε)
    (retryable : ε → Bool) (contextOf : ε → Option String) :
    (maxAttempts ≤ 0 →
      make_attempts maxAttempts attempt validate retryable contextOf =
        ⟨.failure [], 0, 0⟩) ∧
    (1 ≤ maxAttempts → ∀ es,
      (make_attempts maxAttempts attempt validate retryable
        contextOf).outcome = .failure es → es ≠ []) := by
  constructor
  · intro hle
    unfold make_attempts
    rw [Int.toNat_of_nonpos hle]
    rfl
  · intro hge es h
    obtain ⟨t, ht, hne⟩ := makeAttemptsGo_failure_extends attempt validate
      retryable contextOf maxAttempts.toNat 0 [] 0 0 es h
    have : t ≠ [] := hne (by omega)
    simpa [ht]

/-- C10 witness: with `attempts = -3` the callback is never invoked and the
result is an empty `ErrorResult`; with `attempts = 1` and a failing callback
the produced error list `[("x", some "x")]` is non-empty. -/
theorem make_attempts_outcome_shape_witness :
    (make_attempts (-3 : Int)
      (fun _ => (Except.ok 0 : Except String Nat))
      (fun (_ : Nat) => (none : Option String)) (fun _ => true)
      (fun s => some s) = ⟨.failure [], 0, 0⟩) ∧
    ([(("x" : String), some "x")] : List (ExcCtx String)) ≠ [] := by
  constructor
  · exact (make_attempts_outcome_shape (-3)
      (fun _ => (Except.ok 0 : Except String Nat))
      (fun (_ : Nat) => (none : Option String)) (fun _ => true)
      (fun s => some s)).1 (by omega)
  · exact (make_attempts_outcome_shape (1 : Int)
      (fun _ => (Except.error "x" : Except String Nat))
      (fun (_ : Nat) => (none : Option String)) (fun _ => true)
      (fun s => some s)).2 (by omega) [("x", some "x")] rfl

/-! ## Claim theorems: classification -/

/-- C6: `is_recoverable_error` is true on every transport exception
(`requests.exceptions.RequestException`), equals the error's own
`recoverable()` on every `GQLError`, and is false on every other exception;
`error_context` yields the stack-trace string exactly on non-`GQLError`
exceptions and `None` on every `GQLError`. -/
theorem classifier_and_context_spec :
    (∀ info : String, is_recoverable_error (.requestException info) = true) ∧
    (∀ g : GQLError, is_recoverable_error (.gql g) = g.recoverable) ∧
    (∀ info : String, is_recoverable_error (.otherError info) = false) ∧
    (∀ (tb : String) (e : Exc),
      error_context tb e = none ↔ ∃ g, e = .gql g) ∧
    (∀ (tb : String) (e : Exc),
      (∀ g, e ≠ .gql g) → error_context tb e = some tb) := by
  refine ⟨fun _ => rfl, fun _ => rfl, fun _ => rfl, ?_, ?_⟩
  · intro tb e
    cases e with
    | requestException info => simp [error_context]
    | gql g => simp [error_context]
    | otherError info => simp [error_context]
  · intro tb e h
    cases e with
    | requestException info => rfl
    | gql g => exact absurd rfl (h g)
    | otherError info => rfl

/-- C6 witness: the classifiers evaluated at one concrete exception of each
class. -/
theorem classifier_and_context_spec_witness :
    is_recoverable_error (.requestException "timeout") = true ∧
    is_recoverable_error (.gql (.invalidJsonShape [] "m")) =
      (GQLError.invalidJsonShape [] "m").recoverable ∧
    is_recoverable_error (.otherError "KeyError") = false ∧
    error_context "trace" (.gql (.invalidJsonShape [] "m")) = none ∧
    error_context "trace" (.otherError "KeyError") = some "trace" := by
  refine ⟨(classifier_and_context_spec.1 "timeout"), ?_, ?_, ?_, ?_⟩
  · exact classifier_and_context_spec.2.1 (.invalidJsonShape [] "m")
  · exact classifier_and_context_spec.2.2.1 "KeyError"
  · exact (classifier_and_context_spec.2.2.2.1 "trace"
      (.gql (.invalidJsonShape [] "m"))).2 ⟨_, rfl⟩
  · exact classifier_and_context_spec.2.2.2.2 "trace" (.otherError "KeyError")
      (fun g h => by cases h)

/-- C7: `GQLResponseErrors.recoverable()` is true iff every contained error is
individually recoverable, and in particular is true for an empty error
list. -/
theorem response_errors_recoverable_iff_all :
    (∀ (op : String) (errors : List ErrorItem),
      (GQLError.responseErrors op errors).recoverable = true ↔
        ∀ e ∈ errors, e.recoverable = true) ∧
    (∀ op : String, (GQLError.responseErrors op []).recoverable = true) := by
  constructor
  · intro op errors
    simp [GQLError.recoverable, List.all_eq_true]
  · intro op
    rfl

/-- C7 witness: the vacuous empty-list case evaluated at a concrete operation
name, plus a mixed list where one unrecoverable item makes the whole response
unrecoverable. -/
theorem response_errors_recoverable_iff_all_witness :
    (GQLError.responseErrors "OpName" []).recoverable = true ∧
    ¬((GQLError.responseErrors "OpName" [⟨true⟩, ⟨false⟩]).recoverable = true) := by
  constructor
  · exact response_errors_recoverable_iff_all.2 "OpName"
  · intro h
    have := (response_errors_recoverable_iff_all.1 "OpName"
      [⟨true⟩, ⟨false⟩]).1 h ⟨false⟩ (by simp)
    simp at this

/-! ## Claim theorems: batched decoding -/

/-- C8: with a list-shaped request body, a single executor attempt decodes a
JSON-array response by mapping the parse callback positionally over its
elements (in order, a failing element aborting there); a non-array response
raises `InvalidJsonShapeException` within that attempt;
`InvalidJsonShapeException.recoverable()` is always false, so under
`is_recoverable_error` such a shape error stops `make_attempts` at once — one
call, no sleep, never retried. -/
theorem batch_attempt_decode_spec {α : Type} :
    (∀ (bodies elems : List Json) (parse : Json → Except Exc α),
      post_gql_request (.arr bodies) true (.arr elems) parse =
        (elems.mapM parse).map Sum.inr) ∧
    (∀ (bodies : List Json) (resp : Json) (parse : Json → Except Exc α),
      resp.isArr = false →
      post_gql_request (.arr bodies) true resp parse =
        .error (.gql (.invalidJsonShape []
          ("Expected batched response, got " ++ resp.typeName)))) ∧
    (∀ (path : List (String ⊕ Int)) (msg : String),
      (GQLError.invalidJsonShape path msg).recoverable = false ∧
      is_recoverable_error (.gql (.invalidJsonShape path msg)) = false) ∧
    (∀ (maxAttempts : Int) (tb : String) (attempt : Nat → Except Exc α)
      (path : List (String ⊕ Int)) (msg : String),
      1 ≤ maxAttempts →
      attempt 0 = .error (.gql (.invalidJsonShape path msg)) →
      make_attempts maxAttempts attempt validate_response is_recoverable_error
        (error_context tb) =
        ⟨.failure [(.gql (.invalidJsonShape path msg), none)], 1, 0⟩) := by
  refine ⟨fun _ _ _ => rfl, ?_, fun _ _ => ⟨rfl, rfl⟩, ?_⟩
  · intro bodies resp parse hna
    cases resp <;> simp_all [post_gql_request, Json.isArr]
  · intro maxAttempts tb attempt path msg hge hatt
    unfold make_attempts
    have hstep : attemptStep attempt validate_response 0 =
        .error (.gql (.invalidJsonShape path msg)) := by
      simp [attemptStep, hatt]
    rw [makeAttemptsGo_nonretryable_stop attempt validate_response
      is_recoverable_error (error_context tb)
      (fun _ => .gql (.invalidJsonShape path msg))
      (.gql (.invalidJsonShape path msg)) 0 maxAttempts.toNat 0 [] 0 0
      (by omega) hstep rfl (by omega)]
    rfl

/-- C8 witness: a two-element array response decodes positionally; a dict
response raises the (unrecoverable) shape error, and `make_attempts` then
stops after a single call with no sleep. -/
theorem batch_attempt_decode_spec_witness :
    (post_gql_request (.arr [Json.obj []]) true (.arr [Json.num 1, Json.num 2])
      (fun j => (Except.ok j : Except Exc Json)) =
      .ok (.inr [Json.num 1, Json.num 2])) ∧
    (post_gql_request (.arr [Json.obj []]) true (.obj [])
      (fun j => (Except.ok j : Except Exc Json)) =
      .error (.gql (.invalidJsonShape []
        "Expected batched response, got dict"))) ∧
    (make_attempts (3 : Int)
      (fun _ => (Except.error (.gql (.invalidJsonShape [] "list expected")) :
        Except Exc Json))
      validate_response is_recoverable_error (error_context "tb") =
      ⟨.failure [(.gql (.invalidJsonShape [] "list expected"), none)], 1, 0⟩) := by
  refine ⟨?_, ?_, ?_⟩
  · exact ((batch_attempt_decode_spec (α := Json)).1 [Json.obj []]
      [Json.num 1, Json.num 2] (fun j => Except.ok j)).trans rfl
  · exact ((batch_attempt_decode_spec (α := Json)).2.1 [Json.obj []] (.obj [])
      (fun j => Except.ok j) rfl).trans rfl
  · exact (batch_attempt_decode_spec (α := Json)).2.2.2 3 "tb" _ [] "list expected"
      (by omega) rfl

/-! ## Claim theorems: idempotency tokens -/

/-- Setting then reading the same key on a JSON object yields the written
value. -/
theorem getAssoc_setAssoc_self (fs : List (String × Json)) (k : String)
    (v : Json) : getAssoc (setAssoc fs k v) k = some v := by
  induction fs with
  | nil => simp [setAssoc, getAssoc]
  | cons hd tl ih =>
    by_cases h : hd.1 = k
    · simp [setAssoc, h, getAssoc]
    · simp [setAssoc, h, getAssoc, ih]

/-- Setting then reading the same key on a JSON dict yields the written
value. -/
theorem Json.getField_setField_obj (fs : List (String × Json)) (k : String)
    (v : Json) : ((Json.obj fs).setField k v).getField k = some v := by
  simp [Json.setField, Json.getField, getAssoc_setAssoc_self]

/-- Every body in the trace of the instrumented attempt loop either was
already in the accumulator or is the (fixed) request body. -/
theorem postGqlAttemptsTraced_sent_mem {α : Type} (tb : String) (rj : Json)
    (transport : Nat → Bool × Json) (parse : Json → Except Exc α) :
    ∀ (fuel idx : Nat) (errors : List (ExcCtx Exc)) (calls sleeps : Nat)
      (sent : List Json) (b : Json),
      b ∈ (postGqlAttemptsTraced tb rj transport parse fuel idx errors calls
        sleeps sent).2 →
      b ∈ sent ∨ b = rj := by
  intro fuel
  induction fuel with
  | zero =>
    intro idx errors calls sleeps sent b h
    simp only [postGqlAttemptsTraced] at h
    exact Or.inl h
  | succ f ih =>
    intro idx errors calls sleeps sent b h
    simp only [postGqlAttemptsTraced] at h
    cases hpost : post_gql_request rj (transport idx).1 (transport idx).2 parse with
    | ok v =>
      rw [hpost] at h
      simp only at h
      rcases List.mem_append.1 h with h' | h'
      · exact Or.inl h'
      · exact Or.inr (List.mem_singleton.1 h')
    | error e =>
      rw [hpost] at h
      simp only at h
      by_cases hr : is_recoverable_error e = false
      · rw [if_pos hr] at h
        rcases List.mem_append.1 h with h' | h'
        · exact Or.inl h'
        · exact Or.inr (List.mem_singleton.1 h')
      · rw [if_neg hr] at h
        by_cases hf : f = 0
        · rw [if_pos hf] at h
          rcases List.mem_append.1 h with h' | h'
          · exact Or.inl h'
          · exact Or.inr (List.mem_singleton.1 h')
        · rw [if_neg hf] at h
          rcases ih (idx + 1) (errors ++ [(e, error_context tb e)]) (calls + 1)
            (sleeps + 1) (sent ++ [rj]) b h with h' | h'
          · rcases List.mem_append.1 h' with h'' | h''
            · exact Or.inl h''
            · exact Or.inr (List.mem_singleton.1 h'')
          · exact Or.inr h'

/-- The `variables.input.transactionID` field of a request body. -/
def Json.transactionID (b : Json) : Option Json :=
  ((b.getField "variables").bind (fun v => v.getField "input")).bind
    (fun i => i.getField "transactionID")

/-- C1: in both mutating wrappers (`make_prediction` and
`contribute_to_community_goal`) the random transaction token is drawn exactly
once per logical call, before the retry loop, and every request body submitted
by any attempt of that call carries that same `transactionID`; the token is
never regenerated between attempts. -/
theorem mutation_token_generated_once {α : Type} (maxAttempts : Int)
    (tb : String) (fs fs' : List (String × Json))
    (event_id outcome_id channel_id goal_id : String) (points amount : Int)
    (token_stream : Nat → String) (transport transport' : Nat → Bool × Json)
    (parse parse' : Json → Except Exc α) :
    ((make_prediction maxAttempts tb (.obj fs) event_id outcome_id points
        token_stream transport parse).tokens_drawn = 1) ∧
    (∀ b ∈ (make_prediction maxAttempts tb (.obj fs) event_id outcome_id points
        token_stream transport parse).sent,
      b.transactionID = some (.str (token_stream 0))) ∧
    ((contribute_to_community_goal maxAttempts tb (.obj fs') channel_id goal_id
        amount token_stream transport' parse').tokens_drawn = 1) ∧
    (∀ b ∈ (contribute_to_community_goal maxAttempts tb (.obj fs') channel_id
        goal_id amount token_stream transport' parse').sent,
      b.transactionID = some (.str (token_stream 0))) := by
  refine ⟨rfl, ?_, rfl, ?_⟩
  · intro b hb
    have := postGqlAttemptsTraced_sent_mem tb _ transport parse
      maxAttempts.toNat 0 [] 0 0 [] b hb
    rcases this with h | h
    · cases h
    · subst h
      show (((Json.obj fs).setField "variables" _).transactionID) = _
      rw [Json.transactionID, Json.getField_setField_obj]
      rfl
  · intro b hb
    have := postGqlAttemptsTraced_sent_mem tb _ transport' parse'
      maxAttempts.toNat 0 [] 0 0 [] b hb
    rcases this with h | h
    · cases h
    · subst h
      show (((Json.obj fs').setField "variables" _).transactionID) = _
      rw [Json.transactionID, Json.getField_setField_obj]
      rfl

/-- C1 witness: a concrete `make_prediction` call with two allowed attempts,
the first failing with a recoverable transport error, submits the same body on
both attempts, and the `transactionID` read from that body is the single drawn
token `"tok0"`. -/
theorem mutation_token_generated_once_witness :
    ((make_prediction (2 : Int) "tb"
        (.obj [("operationName", .str "MakePrediction")]) "ev" "out" 50
        (fun k => "tok" ++ toString k)
        (fun idx => (decide (idx ≠ 0), Json.obj []))
        (fun _ => (Except.ok Json.null : Except Exc Json))).tokens_drawn = 1) ∧
    Json.transactionID
      (.obj [("operationName", .str "MakePrediction"),
        ("variables", .obj [("input", .obj
          [("eventID", .str "ev"), ("outcomeID", .str "out"),
           ("points", .num 50), ("transactionID", .str "tok0")])])]) =
      some (.str "tok0") := by
  have h := mutation_token_generated_once (α := Json) 2 "tb"
    [("operationName", .str "MakePrediction")]
    [("operationName", .str "MakePrediction")] "ev" "out" "ch" "goal" 50 10
    (fun k => "tok" ++ toString k) (fun idx => (decide (idx ≠ 0), Json.obj []))
    (fun idx => (decide (idx ≠ 0), Json.obj []))
    (fun _ => (Except.ok Json.null : Except Exc Json))
    (fun _ => (Except.ok Json.null : Except Exc Json))
  refine ⟨h.1, ?_⟩
  refine h.2.1 _ ?_
  show _ ∈ (make_prediction (2 : Int) "tb"
    (.obj [("operationName", .str "MakePrediction")]) "ev" "out" 50
    (fun k => "tok" ++ toString k)
    (fun idx => (decide (idx ≠ 0), Json.obj []))
    (fun _ => (Except.ok Json.null : Except Exc Json))).sent
  rw [show (make_prediction (2 : Int) "tb"
    (.obj [("operationName", .str "MakePrediction")]) "ev" "out" 50
    (fun k => "tok" ++ toString k)
    (fun idx => (decide (idx ≠ 0), Json.obj []))
    (fun _ => (Except.ok Json.null : Except Exc Json))).sent =
    [(.obj [("operationName", .str "MakePrediction"),
        ("variables", .obj [("input", .obj
          [("eventID", .str "ev"), ("outcomeID", .str "out"),
           ("points", .num 50), ("transactionID", .str "tok0")])])]),
     (.obj [("operationName", .str "MakePrediction"),
        ("variables", .obj [("input", .obj
          [("eventID", .str "ev"), ("outcomeID", .str "out"),
           ("points", .num 50), ("transactionID", .str "tok0")])])])] from rfl]
  exact List.mem_cons_self _ _

/-! ## Claim theorems: pagination abort policy -/

/-- C3 counterexample: a first page succeeds (one login, next page pending)
and the second page's single-call execution fails (transport failure, one
allowed attempt, so `post_gql_request_single` raises `RetryError`).
`channel_follows` then propagates the exception — it does not return an empty
list, contrary to the claim that a page failure makes the call return `[]`. -/
theorem channel_follows_failure_raises_counterexample :
    (channel_follows 5 1 "tb" (.obj [("operationName", .str "ChannelFollows")])
      100 "ASC" (fun callIdx _ => (decide (callIdx = 0), Json.str "page0"))
      (fun j => match j with
        | .str "page0" => Except.ok (some ⟨⟨[⟨⟨"alice"⟩, "cur1"⟩], ⟨true⟩⟩⟩)
        | _ => (Except.ok none : Except Exc (Option ChannelFollowsResponse))) =
      .raised (.gql (.retryError "ChannelFollows"
        [(.requestException "HTTPError", some "tb")]))) ∧
    (channel_follows 5 1 "tb" (.obj [("operationName", .str "ChannelFollows")])
      100 "ASC" (fun callIdx _ => (decide (callIdx = 0), Json.str "page0"))
      (fun j => match j with
        | .str "page0" => Except.ok (some ⟨⟨[⟨⟨"alice"⟩, "cur1"⟩], ⟨true⟩⟩⟩)
        | _ => (Except.ok none : Except Exc (Option ChannelFollowsResponse))) ≠
      .returned []) := by
  constructor
  · rfl
  · intro h
    rw [show channel_follows 5 1 "tb"
      (.obj [("operationName", .str "ChannelFollows")]) 100 "ASC"
      (fun callIdx _ => (decide (callIdx = 0), Json.str "page0"))
      (fun j => match j with
        | .str "page0" => Except.ok (some ⟨⟨[⟨⟨"alice"⟩, "cur1"⟩], ⟨true⟩⟩⟩)
        | _ => (Except.ok none : Except Exc (Option ChannelFollowsResponse))) =
      .raised (.gql (.retryError "ChannelFollows"
        [(.requestException "HTTPError", some "tb")])) from rfl] at h
    cases h

/-- If the first `k` page calls (from `callIdx`) succeed with pages reporting
a next page, the pagination loop's behaviour is decided by page call `k`: an
exception there propagates out (`raised`), a parsed `None` there yields
`returned []` — in both cases the logins accumulated so far are discarded. -/
theorem channelFollowsGo_page_abort (maxA : Int) (tb : String) (template : Json)
    (limit : Int) (order : String) (transport : Nat → Nat → Bool × Json)
    (parse : Json → Except Exc (Option ChannelFollowsResponse))
    (pg : Nat → ChannelFollowsResponse) (e : Exc) :
    ∀ (k fuel callIdx : Nat) (cursor : String) (follows : List String),
      k < fuel →
      (∀ j < k, ∀ c : String,
        post_gql_request_single maxA tb "ChannelFollows"
          (channelFollowsBody template limit order c) (transport (callIdx + j))
          parse = .ok (.inl (some (pg (callIdx + j)))) ∧
        (pg (callIdx + j)).follows.page_info.has_next_page = true) →
      ((∀ c : String,
          post_gql_request_single maxA tb "ChannelFollows"
            (channelFollowsBody template limit order c)
            (transport (callIdx + k)) parse = .error e) →
        channelFollowsGo maxA tb template limit order transport parse fuel
          callIdx cursor follows = .raised e) ∧
      ((∀ c : String,
          post_gql_request_single maxA tb "ChannelFollows"
            (channelFollowsBody template limit order c)
            (transport (callIdx + k)) parse = .ok (.inl none)) →
        channelFollowsGo maxA tb template limit order transport parse fuel
          callIdx cursor follows = .returned []) := by
  intro k
  induction k with
  | zero =>
    intro fuel callIdx cursor follows hk _
    match fuel, hk with
    | f + 1, _ =>
      constructor
      · intro hcall
        have h := hcall cursor
        rw [Nat.add_zero] at h
        simp only [channelFollowsGo, h]
      · intro hcall
        have h := hcall cursor
        rw [Nat.add_zero] at h
        simp only [channelFollowsGo, h]
  | succ k ih =>
    intro fuel callIdx cursor follows hk hpages
    match fuel, hk with
    | f + 1, hk =>
      have h0 := hpages 0 (Nat.succ_pos k) cursor
      rw [Nat.add_zero] at h0
      have hrec : ∀ (cursor' : String) (follows' : List String),
          channelFollowsGo maxA tb template limit order transport parse (f + 1)
            callIdx cursor follows =
          channelFollowsGo maxA tb template limit order transport parse f
            (callIdx + 1)
            ((((pg callIdx).follows.edges.getLast?).map
              (fun e => e.cursor)).getD cursor)
            (follows ++ (pg callIdx).follows.edges.map (fun e => e.node.login)) := by
        intro _ _
        simp only [channelFollowsGo, h0.1, h0.2, if_true]
      rw [hrec cursor follows]
      exact ih f (callIdx + 1) _ _ (by omega)
        (fun j hj c => by
          have := hpages (j + 1) (by omega) c
          rw [show callIdx + (j + 1) = callIdx + 1 + j by omega] at this
          exact this)
        |>.imp
        (fun h hc => h (fun c => by
          have := hc c
          rw [show callIdx + (k + 1) = callIdx + 1 + k by omega] at this
          exact this))
        (fun h hc => h (fun c => by
          have := hc c
          rw [show callIdx + (k + 1) = callIdx + 1 + k by omega] at this
          exact this))

/-- C3 amended: if the first `k` page calls of `channel_follows` succeed with
more pages pending, then (a) when page call `k`'s single-call execution fails
(raises), the whole pagination aborts by propagating that exception — no list,
and in particular not the accumulated items, is returned; and (b) when page
call `k` yields a parsed response of `None`, the call returns the empty list,
again discarding the items accumulated from earlier pages. -/
theorem channel_follows_abort_profile (fuel : Nat) (maxA : Int) (tb : String)
    (template : Json) (limit : Int) (order : String)
    (transport : Nat → Nat → Bool × Json)
    (parse : Json → Except Exc (Option ChannelFollowsResponse))
    (k : Nat) (pg : Nat → ChannelFollowsResponse) (e : Exc)
    (hk : k < fuel)
    (hpages : ∀ j < k, ∀ c : String,
      post_gql_request_single maxA tb "ChannelFollows"
        (channelFollowsBody template limit order c) (transport j) parse =
        .ok (.inl (some (pg j))) ∧
      (pg j).follows.page_info.has_next_page = true) :
    ((∀ c : String,
        post_gql_request_single maxA tb "ChannelFollows"
          (channelFollowsBody template limit order c) (transport k) parse =
          .error e) →
      channel_follows fuel maxA tb template limit order transport parse =
        .raised e) ∧
    ((∀ c : String,
        post_gql_request_single maxA tb "ChannelFollows"
          (channelFollowsBody template limit order c) (transport k) parse =
          .ok (.inl none)) →
      channel_follows fuel maxA tb template limit order transport parse =
        .returned []) := by
  have h := channelFollowsGo_page_abort maxA tb template limit order transport
    parse pg e k fuel 0 "" [] hk
    (fun j hj c => by simpa using hpages j hj c)
  unfold channel_follows
  exact h.imp
    (fun hh hc => hh (fun c => by simpa using hc c))
    (fun hh hc => hh (fun c => by simpa using hc c))

/-- C3 amended witness: with one successful page (next pending) and a `None`
parse on the second page call, `channel_follows` returns `[]`, discarding the
first page's login. -/
theorem channel_follows_abort_profile_witness :
    channel_follows 5 1 "tb" (.obj [("operationName", .str "ChannelFollows")])
      100 "ASC"
      (fun callIdx _ => (true, if callIdx = 0 then Json.str "page0" else Json.null))
      (fun j => match j with
        | .str "page0" => Except.ok (some ⟨⟨[⟨⟨"alice"⟩, "cur1"⟩], ⟨true⟩⟩⟩)
        | _ => (Except.ok none : Except Exc (Option ChannelFollowsResponse))) =
      .returned [] := by
  refine (channel_follows_abort_profile 5 1 "tb"
    (.obj [("operationName", .str "ChannelFollows")]) 100 "ASC"
    (fun callIdx _ => (true, if callIdx = 0 then Json.str "page0" else Json.null))
    (fun j => match j with
      | .str "page0" => Except.ok (some ⟨⟨[⟨⟨"alice"⟩, "cur1"⟩], ⟨true⟩⟩⟩)
      | _ => (Except.ok none : Except Exc (Option ChannelFollowsResponse)))
    1 (fun _ => ⟨⟨[⟨⟨"alice"⟩, "cur1"⟩], ⟨true⟩⟩⟩) (.otherError "unused")
    (by omega) ?_).2 ?_
  · intro j hj c
    interval_cases j
    exact ⟨rfl, rfl⟩
  · intro c
    rfl

/-! ## Claim theorems: batching driver partial tolerance -/

/-- C2: evaluation at the failing input.  21 campaign ids form two chunks; the
first chunk's transport response is a JSON object (not array-shaped), the
second chunk's would parse fine.  The non-array response raises an
unrecoverable `InvalidJsonShapeException` inside the attempt, so
`post_gql_request_batch` raises `RetryError` and `get_drop_campaign_details`
propagates it: the whole call fails, the second chunk is never returned, and
the in-code `isinstance(response, list)` skip-and-continue guard is never
reached (a successful batch value is always a list).  The second conjunct
shows the second chunk alone would have succeeded, so the claimed
skip-and-proceed policy would have produced its results. -/
theorem drop_campaign_chunk_abort_eval :
    (get_drop_campaign_details 3 "tb"
      (.obj [("operationName", .str "DropCampaignDetails")]) "u"
      (List.replicate 21 "c")
      (fun chunkIdx _ => (true,
        if chunkIdx = 0 then Json.obj []
        else Json.arr [Json.arr [Json.str "ok"]]))
      (fun j => (Except.ok j : Except Exc Json)) =
      .error (.gql (.retryError "DropCampaignDetails"
        [(.gql (.invalidJsonShape [] "Expected batched response, got dict"),
          none)]))) ∧
    (get_drop_campaign_details 3 "tb"
      (.obj [("operationName", .str "DropCampaignDetails")]) "u" ["c"]
      (fun _ _ => (true, Json.arr [Json.arr [Json.str "ok"]]))
      (fun j => (Except.ok j : Except Exc Json)) =
      .ok [[Json.str "ok"]]) :=
  ⟨rfl, rfl⟩

/-! ## Claim theorems: template copy discipline -/

/-- Whether the value is a JSON dict. -/
def Json.isObj : Json → Bool
  | .obj _ => true
  | _ => false

/-- Allocation leaves existing addresses unchanged. -/
theorem Heap.get_alloc_of_lt (h : Heap) (j : Json) (b : Nat)
    (hb : b < h.objs.length) : (h.alloc j).1.get b = h.get b := by
  simp only [Heap.alloc, Heap.get, List.getD_eq_getElem?_getD]
  rw [List.getElem?_append]
  simp [hb]

/-- Mutating one address leaves the others unchanged. -/
theorem Heap.get_setField_ne (h : Heap) (a b : Nat) (k : String) (v : Json)
    (hab : a ≠ b) : (h.setField a k v).get b = h.get b := by
  simp only [Heap.setField, Heap.get, List.getD_eq_getElem?_getD]
  rw [List.getElem?_set_ne hab]

/-- Reading back the mutated address sees the field write. -/
theorem Heap.get_setField_self (h : Heap) (a : Nat) (k : String) (v : Json)
    (ha : a < h.objs.length) :
    (h.setField a k v).get a = (h.get a).setField k v := by
  simp only [Heap.setField, Heap.get, List.getD_eq_getElem?_getD]
  rw [List.getElem?_set_self ha]
  rfl

/-- Setting one key of a JSON object leaves every other key's value
unchanged. -/
theorem getAssoc_setAssoc_ne (fs : List (String × Json)) (key k : String)
    (v : Json) (hk : k ≠ key) : getAssoc (setAssoc fs key v) k = getAssoc fs k := by
  induction fs with
  | nil =>
    simp only [setAssoc, getAssoc]
    rw [if_neg (Ne.symm hk)]
  | cons hd tl ih =>
    obtain ⟨k', v'⟩ := hd
    by_cases h : k' = key
    · subst h
      simp only [setAssoc, if_pos rfl, getAssoc]
      rw [if_neg (Ne.symm hk), if_neg (Ne.symm hk)]
    · simp only [setAssoc, if_neg h, getAssoc]
      by_cases h2 : k' = k
      · rw [if_pos h2, if_pos h2]
      · rw [if_neg h2, if_neg h2]
        exact ih

/-- Setting one key of a JSON value leaves every other key's value
unchanged. -/
theorem Json.getField_setField_ne (j : Json) (key k : String) (v : Json)
    (hk : k ≠ key) : (j.setField key v).getField k = j.getField k := by
  cases j <;> simp [Json.setField, Json.getField, getAssoc_setAssoc_ne _ _ _ _ hk]

/-- Setting a key of a JSON dict makes it readable. -/
theorem Json.getField_setField_self (j : Json) (key : String) (v : Json)
    (hobj : j.isObj = true) : (j.setField key v).getField key = some v := by
  cases j <;> simp_all [Json.isObj, Json.setField, Json.getField,
    getAssoc_setAssoc_self]

/-- C9 counterexample: `get_inventory` does not build a fresh deep copy of its
shared template — it passes the template object itself (the same heap address)
to the executor, with the heap untouched, refuting "every operation wrapper
builds a fresh deep copy of its shared request template". -/
theorem get_inventory_no_copy_counterexample :
    get_inventory_build ⟨[.obj [("operationName", .str "Inventory")]]⟩ 0 =
      (⟨[.obj [("operationName", .str "Inventory")]]⟩, 0) := rfl

/-- C9 amended: the operation wrappers that insert variables (here
`video_player_stream_info_overlay_channel` and `make_prediction`, the pattern
shared by all variable-inserting wrappers) deep-copy the shared template to a
fresh address and write only the `variables` field of that copy, so the
template constant is never mutated and holds its original value afterwards;
`get_inventory` and `get_viewer_drops_dashboard` build no copy — they pass the
shared template address itself — but write nothing, leaving the whole heap
unchanged, so the template constants are never mutated in every wrapper. -/
theorem template_copy_discipline (h : Heap) (tmpl : Nat)
    (hlt : tmpl < h.objs.length) (hobj : (h.get tmpl).isObj = true)
    (u event_id outcome_id : String) (points : Int) (token : String) :
    ((video_player_stream_info_overlay_channel_build h tmpl u).1.get tmpl =
      h.get tmpl) ∧
    ((video_player_stream_info_overlay_channel_build h tmpl u).2 ≠ tmpl) ∧
    (∀ k, k ≠ "variables" →
      ((video_player_stream_info_overlay_channel_build h tmpl u).1.get
        (video_player_stream_info_overlay_channel_build h tmpl u).2).getField k =
        (h.get tmpl).getField k) ∧
    (((video_player_stream_info_overlay_channel_build h tmpl u).1.get
        (video_player_stream_info_overlay_channel_build h tmpl u).2).getField
        "variables" = some (.obj [("channel", .str u)])) ∧
    ((make_prediction_build h tmpl event_id outcome_id points token).1.get tmpl =
      h.get tmpl) ∧
    ((make_prediction_build h tmpl event_id outcome_id points token).2 ≠ tmpl) ∧
    (∀ k, k ≠ "variables" →
      ((make_prediction_build h tmpl event_id outcome_id points token).1.get
        (make_prediction_build h tmpl event_id outcome_id points token).2).getField
        k = (h.get tmpl).getField k) ∧
    (get_inventory_build h tmpl = (h, tmpl)) ∧
    (get_viewer_drops_dashboard_build h tmpl = (h, tmpl)) := by
  have halloc : h.objs.length ≠ tmpl := by omega
  have hlen : tmpl < (h.alloc (h.get tmpl)).1.objs.length := by
    simp [Heap.alloc]; omega
  have hlen2 : h.objs.length < (h.alloc (h.get tmpl)).1.objs.length := by
    simp [Heap.alloc]
  have hga : (h.alloc (h.get tmpl)).1.get h.objs.length = h.get tmpl := by
    simp [Heap.alloc, Heap.get, List.getD_eq_getElem?_getD]
  refine ⟨?_, halloc, ?_, ?_, ?_, halloc, ?_, rfl, rfl⟩
  · show ((h.alloc (h.get tmpl)).1.setField h.objs.length "variables" _).get tmpl
      = h.get tmpl
    rw [Heap.get_setField_ne _ _ _ _ _ halloc, Heap.get_alloc_of_lt _ _ _ hlt]
  · intro k hk
    show (((h.alloc (h.get tmpl)).1.setField h.objs.length "variables" _).get
      h.objs.length).getField k = _
    rw [Heap.get_setField_self _ _ _ _ (by simp [Heap.alloc]),
      Json.getField_setField_ne _ _ _ _ hk, hga]
  · show (((h.alloc (h.get tmpl)).1.setField h.objs.length "variables" _).get
      h.objs.length).getField "variables" = _
    rw [Heap.get_setField_self _ _ _ _ (by simp [Heap.alloc]), hga,
      Json.getField_setField_self _ _ _ hobj]
  · show ((h.alloc (h.get tmpl)).1.setField h.objs.length "variables" _).get tmpl
      = h.get tmpl
    rw [Heap.get_setField_ne _ _ _ _ _ halloc, Heap.get_alloc_of_lt _ _ _ hlt]
  · intro k hk
    show (((h.alloc (h.get tmpl)).1.setField h.objs.length "variables" _).get
      h.objs.length).getField k = _
    rw [Heap.get_setField_self _ _ _ _ (by simp [Heap.alloc]),
      Json.getField_setField_ne _ _ _ _ hk, hga]

/-- C9 amended witness: on a one-object heap holding the template, the
video-player wrapper's build leaves the template at address 0 intact, sends a
distinct fresh address, agrees with the template outside `variables`, and
carries its own `variables`; the inventory wrapper leaves the heap unchanged
and sends the template address. -/
theorem template_copy_discipline_witness :
    ((video_player_stream_info_overlay_channel_build
        ⟨[.obj [("operationName", .str "VPSIOC")]]⟩ 0 "streamer").1.get 0 =
      .obj [("operationName", .str "VPSIOC")]) ∧
    ((video_player_stream_info_overlay_channel_build
        ⟨[.obj [("operationName", .str "VPSIOC")]]⟩ 0 "streamer").2 ≠ 0) ∧
    (((video_player_stream_info_overlay_channel_build
        ⟨[.obj [("operationName", .str "VPSIOC")]]⟩ 0 "streamer").1.get
        (video_player_stream_info_overlay_channel_build
          ⟨[.obj [("operationName", .str "VPSIOC")]]⟩ 0 "streamer").2).getField
        "operationName" = some (.str "VPSIOC")) ∧
    (get_inventory_build ⟨[.obj [("operationName", .str "VPSIOC")]]⟩ 0 =
      (⟨[.obj [("operationName", .str "VPSIOC")]]⟩, 0)) := by
  have h := template_copy_discipline ⟨[.obj [("operationName", .str "VPSIOC")]]⟩
    0 (by simp) rfl "streamer" "ev" "out" 50 "tok"
  refine ⟨?_, h.2.1, ?_, h.2.2.2.2.2.2.2.1⟩
  · rw [h.1]; rfl
  · rw [h.2.2.1 "operationName" (by decide)]; rfl

end TCPM
